import Mathlib

/-!
Verification of the Catalog Store of the course-catalog Flask application
(src/app.py).  The embedding models:

* the backing JSON file (constant COURSE_FILE) as an abstract file state,
  abstracting file contents by their json.load outcome;
* load_courses / save_courses (lines 48-61);
* the course_details lookup route (lines 92-106);
* the add_course POST handler (lines 110-192): field extraction with
  defaults, required-field validation, the case-insensitive duplicate
  check, and the save;
* an interleaving model of two concurrent add_course POST requests, used
  to analyse the check-then-act behaviour of the unlocked store.

Python string lowering (str.lower) is modelled by String.toLower; the two
agree on ASCII, which covers every course code manipulated here.
-/

namespace CourseCatalog

/-- A JSON value, as produced by Python json.load.  Numeric payloads are
modelled by Int; no claim depends on numerics. -/
inductive Json where
  | null
  | bool (b : Bool)
  | num (n : Int)
  | str (s : String)
  | arr (elems : List Json)
  | obj (fields : List (String × Json))

/-- Key lookup in a JSON object, first occurrence wins (Python dicts have
unique keys; this models d.get-style access on an object). -/
def Json.lookup : Json → String → Option Json
  | .obj kvs, k => (kvs.find? (fun p => p.1 == k)).map Prod.snd
  | _, _ => none

/-- Keys of a JSON object, in order; empty for non-objects. -/
def Json.keys : Json → List String
  | .obj kvs => kvs.map Prod.fst
  | _ => []

/-- The error raised by load_courses when the backing file exists but
json.load cannot parse it (json.JSONDecodeError, the spec's
StorageCorruptError). -/
inductive StorageError where
  | corrupt
deriving Repr, DecidableEq

/-- State of the backing file COURSE_FILE, with the raw text abstracted by
its json.load outcome: none = the file does not exist; some none = the
file exists but is not syntactically valid JSON (json.load raises);
some (some v) = the file exists and json.load returns v. -/
abbrev FileState := Option (Option Json)

/-- load_courses (src/app.py lines 48-53): if the file does not exist
return the empty list; otherwise return what json.load yields, letting a
parse failure escape as an exception. -/
def load_courses : FileState → Except StorageError Json
  | none => .ok (.arr [])
  | some none => .error .corrupt
  | some (some v) => .ok v

/-- A course record: the nine string fields written by add_course
(src/app.py lines 175-185). -/
structure Course where
  code : String
  name : String
  instructor : String
  semester : String
  schedule : String
  classroom : String
  prerequisites : String
  grading : String
  description : String
deriving Repr, DecidableEq

/-- The JSON object add_course passes to save_courses for one record
(src/app.py lines 175-185): all nine keys always present, in this order. -/
def Course.toJson (c : Course) : Json :=
  .obj [("code", .str c.code), ("name", .str c.name),
        ("instructor", .str c.instructor), ("semester", .str c.semester),
        ("schedule", .str c.schedule), ("classroom", .str c.classroom),
        ("prerequisites", .str c.prerequisites), ("grading", .str c.grading),
        ("description", .str c.description)]

/-- Decode one JSON value as a course record: an object whose nine field
values are strings.  This is the spec's notion of a Course Record (§3);
the Python code never performs such a decode, which is what claim C8 is
about. -/
def decodeCourse (v : Json) : Option Course := do
  let getStr (k : String) : Option String := do
    match v.lookup k with
    | some (.str s) => some s
    | _ => none
  let code ← getStr "code"
  let name ← getStr "name"
  let instructor ← getStr "instructor"
  let semester ← getStr "semester"
  let schedule ← getStr "schedule"
  let classroom ← getStr "classroom"
  let prerequisites ← getStr "prerequisites"
  let grading ← getStr "grading"
  let description ← getStr "description"
  some ⟨code, name, instructor, semester, schedule, classroom,
        prerequisites, grading, description⟩

/-- Decode a JSON value as the expected structure of the backing file: an
ordered sequence of Course Records (spec §3/§6). -/
def decodeCourses (v : Json) : Option (List Course) :=
  match v with
  | .arr xs => xs.mapM decodeCourse
  | _ => none

/-- The file contents json.dump produces for a stored collection
(src/app.py lines 60-61): a JSON array of the records in order. -/
def persist (stored : List Course) : FileState :=
  some (some (.arr (stored.map Course.toJson)))

/-- Python str.lower, restricted to the ASCII range: lower-case every
character (Char.toLower maps A-Z to a-z and fixes everything else, which
matches str.lower on ASCII, the alphabet of the codes handled here). -/
def pyLower (s : String) : String := String.mk (s.data.map Char.toLower)

/-- listAll on a well-formed store: course_catalog (src/app.py lines
73-89) renders exactly the list load_courses returned, in file order. -/
def listAll (stored : List Course) : List Course := stored

/-- findByCode on a well-formed store: the lookup in course_details
(src/app.py line 101), a case-sensitive exact match on the code field;
None (here Option.none) is the NotFound result handled at lines 103-105. -/
def findByCode (stored : List Course) (q : String) : Option Course :=
  stored.find? (fun course => course.code == q)

/-- save_courses (src/app.py lines 56-61) on a well-formed store: load the
existing collection, append the new record at the end, write everything
back. -/
def save_courses (data : Course) (stored : List Course) : List Course :=
  stored ++ [data]

/-- Outcome of the store part of add_course. -/
inductive AppendResult where
  | success
  | duplicateCodeError
deriving Repr, DecidableEq

/-- The load-check-write sequence of add_course (src/app.py lines
165-185), run after validation passed: load the collection, reject when
some stored code matches the submitted code case-insensitively (line
167), otherwise save.  Returns the outcome and the resulting file
collection. -/
def append (record : Course) (stored : List Course) :
    AppendResult × List Course :=
  if stored.any (fun course => pyLower course.code == pyLower record.code)
  then (.duplicateCodeError, stored)
  else (.success, save_courses record stored)

/-- A raw form submission: request.form.get(k) is none when field k was
absent from the POST data (src/app.py lines 121-129). -/
structure Form where
  code : Option String
  name : Option String
  instructor : Option String
  semester : Option String
  schedule : Option String
  classroom : Option String
  prerequisites : Option String
  grading : Option String
  description : Option String
deriving Repr, DecidableEq

/-- Python falsiness of an extracted form field: the validation at line
146 tests "not x", which holds exactly for None and the empty string.
No trimming is applied. -/
def pyFalsy : Option String → Bool
  | none => true
  | some s => s.isEmpty

/-- The guard of the validation branch (src/app.py line 146). -/
def requiredBlank (form : Form) : Bool :=
  pyFalsy form.code || pyFalsy form.name || pyFalsy form.instructor ||
  pyFalsy form.semester || pyFalsy form.schedule

/-- The missing_fields list built at src/app.py lines 147-157: one
human-readable name per falsy required field, appended in the fixed
order course code, course name, instructor, semester, schedule. -/
def missing_fields (form : Form) : List String :=
  (if pyFalsy form.code then ["course code"] else []) ++
  (if pyFalsy form.name then ["course name"] else []) ++
  (if pyFalsy form.instructor then ["instructor"] else []) ++
  (if pyFalsy form.semester then ["semester"] else []) ++
  (if pyFalsy form.schedule then ["schedule"] else [])

/-- Spec-side view of the required fields (§4.2): human-readable name and
accessor, in the order the code checks them at lines 148-157. -/
def requiredNames : List (String × (Form → Option String)) :=
  [("course code", Form.code), ("course name", Form.name),
   ("instructor", Form.instructor), ("semester", Form.semester),
   ("schedule", Form.schedule)]

/-- The course record add_course builds from the extracted locals: fields
fetched with a default of the empty string (src/app.py lines 125-129)
are defaulted here; code, name, instructor and semester are non-None on
the success path, where validation has already passed. -/
def formRecord (form : Form) : Course :=
  { code := form.code.getD "", name := form.name.getD "",
    instructor := form.instructor.getD "",
    semester := form.semester.getD "",
    schedule := form.schedule.getD "",
    classroom := form.classroom.getD "",
    prerequisites := form.prerequisites.getD "",
    grading := form.grading.getD "",
    description := form.description.getD "" }

/-- Outcome of a whole add_course POST. -/
inductive AddResult where
  | validationError (missingFields : List String)
  | duplicateCodeError
  | success
deriving Repr, DecidableEq

/-- The add_course POST handler on a well-formed store (src/app.py lines
119-189): validate the required fields (lines 146-163, re-rendering the
form and leaving the file untouched on failure), then run the duplicate
check and save (lines 165-185). -/
def add_course (form : Form) (stored : List Course) :
    AddResult × List Course :=
  if requiredBlank form then (.validationError (missing_fields form), stored)
  else if stored.any
      (fun course => pyLower course.code == pyLower (form.code.getD ""))
  then (.duplicateCodeError, stored)
  else (.success, save_courses (formRecord form) stored)

/-- The case-insensitive uniqueness invariant of the spec (§3): no two
stored records share a lowered code. -/
def codesUnique (stored : List Course) : Prop :=
  (stored.map (fun course => pyLower course.code)).Nodup

/-- The stored collections reachable from the empty collection by
successful append operations. -/
inductive Reachable : List Course → Prop where
  | empty : Reachable []
  | step (record : Course) (stored : List Course) :
      Reachable stored → (append record stored).1 = .success →
      Reachable (append record stored).2

/-- The comparison course.lookup "code" == q performed by Python at
src/app.py line 101: true exactly when the element is an object whose
code key holds a string equal (case-sensitively) to q; Python equality
between a non-string value and the string q is False. -/
def codeFieldIs (course : Json) (q : String) : Bool :=
  match course.lookup "code" with
  | some (.str s) => s == q
  | _ => false

/-- The course_catalog route at file-state level: it only reads (a single
load_courses call at line 87), so the file state is returned unchanged
next to the result. -/
def course_catalog_route (fs : FileState) :
    FileState × Except StorageError Json :=
  (fs, load_courses fs)

/-- The course_details route at file-state level (src/app.py lines
92-106): one load_courses call, then a pure scan for an element whose
code key equals the queried code exactly; no write ever happens.  When
the parsed value is not an array, or an element is not an object with a
code key, Python raises a dynamic error at line 101; only the (unchanged)
file component matters for the frame claim, so the scan simply finds
nothing in those cases. -/
def course_details_route (fs : FileState) (q : String) :
    FileState × Except StorageError (Option Json) :=
  match load_courses fs with
  | .error e => (fs, .error e)
  | .ok (.arr courses) =>
      (fs, .ok (courses.find? (fun course => codeFieldIs course q)))
  | .ok _ => (fs, .ok none)

/-- Progress of one in-flight add_course POST through its two file
accesses. -/
inductive Phase where
  | start
  | checked
  | done (r : AppendResult)
deriving Repr, DecidableEq

/-- One atomic step of one request: from start, perform the load and the
duplicate check (src/app.py lines 165-170) against the current file;
from checked, perform save_courses (lines 174-185), i.e. reload and
write back with the record appended.  Each of the two file accesses is
taken as atomic, which is generous to the unlocked code. -/
def stepThread (record : Course) (file : List Course) :
    Phase → Phase × List Course
  | .start =>
      if file.any (fun course => pyLower course.code == pyLower record.code)
      then (.done .duplicateCodeError, file)
      else (.checked, file)
  | .checked => (.done .success, save_courses record file)
  | .done r => (.done r, file)

/-- Shared state of two concurrent add_course POSTs: the backing file and
each request's progress. -/
structure RaceState where
  file : List Course
  t1 : Phase
  t2 : Phase
deriving Repr, DecidableEq

/-- Let the scheduled request (false = first, true = second) take its next
atomic step. -/
def schedStep (rec1 rec2 : Course) (s : RaceState) : Bool → RaceState
  | false =>
      let (p, f) := stepThread rec1 s.file s.t1
      { file := f, t1 := p, t2 := s.t2 }
  | true =>
      let (p, f) := stepThread rec2 s.file s.t2
      { file := f, t1 := s.t1, t2 := p }

/-- Run two concurrent add_course POSTs under a given interleaving. -/
def run (rec1 rec2 : Course) (sched : List Bool) (s : RaceState) : RaceState :=
  sched.foldl (schedStep rec1 rec2) s

/-- A concrete course record used to instantiate theorems (spec §8). -/
def courseA : Course :=
  ⟨"CS101", "Intro", "Dr. A", "Fall", "MWF 9am", "", "", "", ""⟩

/-- A concrete record whose code collides with courseA case-insensitively. -/
def courseB : Course :=
  ⟨"cs101", "Intro II", "Dr. B", "Fall", "TTh 10am", "", "", "", ""⟩

/-- A concrete record whose code is distinct from courseA's. -/
def courseM : Course :=
  ⟨"MA102", "Calculus", "Dr. C", "Fall", "TTh 2pm", "", "", "", ""⟩

/-- C1: appending a record whose code matches a stored record's code
case-insensitively fails with DuplicateCodeError, and the stored
collection is returned unchanged — same length, same content. -/
theorem duplicate_append_rejected (record : Course) (stored : List Course)
    (hdup : stored.any
      (fun course => pyLower course.code == pyLower record.code) = true) :
    append record stored = (.duplicateCodeError, stored) := by
  simp [append, hdup]

/-- Witness for C1: appending the cs101 record over a store holding the
CS101 record is rejected and leaves the store untouched. -/
theorem duplicate_append_rejected_witness :
    append courseB [courseA] = (.duplicateCodeError, [courseA]) :=
  duplicate_append_rejected courseB [courseA] (by decide)

/-- C3: when two records have case-insensitively distinct codes, neither
of which is already stored, appending the first then the second both
succeed, each record is added at the end, and listAll afterwards returns
both in insertion order. -/
theorem distinct_appends_succeed (r1 r2 : Course) (stored : List Course)
    (h12 : pyLower r1.code ≠ pyLower r2.code)
    (h1 : stored.any
      (fun course => pyLower course.code == pyLower r1.code) = false)
    (h2 : stored.any
      (fun course => pyLower course.code == pyLower r2.code) = false) :
    append r1 stored = (.success, stored ++ [r1]) ∧
    append r2 (stored ++ [r1]) = (.success, stored ++ [r1] ++ [r2]) ∧
    listAll (stored ++ [r1] ++ [r2]) = stored ++ [r1] ++ [r2] := by
  have hany : (stored ++ [r1]).any
      (fun course => pyLower course.code == pyLower r2.code) = false := by
    simp only [List.any_append, h2, Bool.false_or, List.any_cons,
      List.any_nil, Bool.or_false]
    exact beq_eq_false_iff_ne.mpr h12
  refine ⟨by simp [append, save_courses, h1],
          by simp [append, save_courses, hany], rfl⟩

/-- Witness for C3: on the empty store, appending CS101 then MA102 both
succeed and listAll returns the two records in insertion order. -/
theorem distinct_appends_succeed_witness :
    append courseA [] = (.success, [courseA]) ∧
    append courseM [courseA] = (.success, [courseA, courseM]) ∧
    listAll [courseA, courseM] = [courseA, courseM] :=
  distinct_appends_succeed courseA courseM []
    (by decide) (by decide) (by decide)

/-- C4: the code runs load-check-write with no lock, so the check-then-act
race is real: under the interleaving where both requests run the
duplicate check before either writes, two concurrent add_course POSTs
with case-insensitively equal codes BOTH report success, and the final
file holds two records with that code — contradicting the claim that
exactly one succeeds and exactly one such record is stored. -/
theorem concurrent_append_race :
    run courseA courseB [false, true, false, true]
        ⟨[], .start, .start⟩ =
      ⟨[courseA, courseB], .done .success, .done .success⟩ ∧
    (([courseA, courseB].filter
        (fun course => pyLower course.code == pyLower courseA.code)).length
      = 2) := by
  exact ⟨rfl, by decide⟩

/-- C6: findByCode is a case-sensitive exact match on the code field: on
the empty store it returns none (NotFound, a value, not an exception)
for every query, any hit has exactly the queried code and is stored, and
when no stored record's code equals the query exactly it returns none. -/
theorem findByCode_exact_match (stored : List Course) (q : String) :
    findByCode [] q = none ∧
    (∀ c, findByCode stored q = some c → c.code = q ∧ c ∈ stored) ∧
    ((∀ c ∈ stored, c.code ≠ q) → findByCode stored q = none) := by
  refine ⟨rfl, ?_, ?_⟩
  · intro c hc
    refine ⟨?_, List.mem_of_find?_eq_some hc⟩
    have hp := List.find?_some hc
    simpa using hp
  · intro h
    apply List.find?_eq_none.mpr
    intro c hmem
    simpa using h c hmem

/-- Witness for C6: the store holding only the CS101 record answers
NotFound to the query cs101 — lookup is case-sensitive. -/
theorem findByCode_exact_match_witness :
    findByCode [courseA] "cs101" = none :=
  (findByCode_exact_match [courseA] "cs101").2.2 (by decide)

/-- C7: when the backing file does not exist, load_courses returns the
empty JSON array rather than failing, and that array decodes to the
empty course sequence, so listAll reports an empty catalog. -/
theorem listAll_missing_file_empty :
    load_courses none = .ok (Json.arr []) ∧
    decodeCourses (Json.arr []) = some (listAll []) :=
  ⟨rfl, rfl⟩

/-- C10: the two read operations thread the file state through unchanged:
for every initial file state and every query, course_catalog (listAll)
and course_details (findByCode) leave the backing file exactly as it
was. -/
theorem reads_preserve_file (fs : FileState) (q : String) :
    (course_catalog_route fs).1 = fs ∧ (course_details_route fs q).1 = fs := by
  refine ⟨rfl, ?_⟩
  unfold course_details_route
  cases fs with
  | none => rfl
  | some o =>
    cases o with
    | none => rfl
    | some v => cases v <;> rfl

/-- Helper: a successful append implies the duplicate check came out
false. -/
theorem append_success_no_dup (record : Course) (stored : List Course)
    (hs : (append record stored).1 = .success) :
    stored.any (fun course => pyLower course.code == pyLower record.code)
      = false := by
  cases h : stored.any
      (fun course => pyLower course.code == pyLower record.code) with
  | false => rfl
  | true => simp [append, h] at hs

/-- Helper: a successful append preserves case-insensitive code
uniqueness. -/
theorem append_preserves_codesUnique (record : Course) (stored : List Course)
    (hu : codesUnique stored) (hs : (append record stored).1 = .success) :
    codesUnique (append record stored).2 := by
  have h := append_success_no_dup record stored hs
  have h2 : (append record stored).2 = stored ++ [record] := by
    simp [append, save_courses, h]
  rw [h2]
  unfold codesUnique at hu ⊢
  rw [List.map_append, List.nodup_append]
  refine ⟨hu, List.nodup_singleton _, ?_⟩
  intro a ha hb
  simp only [List.map_cons, List.map_nil, List.mem_singleton] at hb
  subst hb
  simp only [List.any_eq_false, beq_iff_eq] at h
  simp only [List.mem_map] at ha
  obtain ⟨c, hc, hceq⟩ := ha
  exact h c hc hceq

/-- C2: every stored collection reachable from the empty collection by
successful appends has case-insensitively unique codes, and every
successful append preserves that invariant. -/
theorem reachable_codes_unique :
    (∀ stored, Reachable stored → codesUnique stored) ∧
    (∀ record stored, codesUnique stored →
      (append record stored).1 = .success →
      codesUnique (append record stored).2) := by
  refine ⟨?_, fun record stored => append_preserves_codesUnique record stored⟩
  intro stored h
  induction h with
  | empty => simp [codesUnique]
  | step record stored hr hs ih =>
      exact append_preserves_codesUnique record stored ih hs

/-- Witness for C2: the store reached by appending CS101 then MA102 to the
empty store has unique codes. -/
theorem reachable_codes_unique_witness :
    codesUnique [courseA, courseM] :=
  reachable_codes_unique.1 [courseA, courseM]
    (Reachable.step courseM [courseA]
      (Reachable.step courseA [] Reachable.empty (by decide)) (by decide))

/-- Counterexample to C5 as stated: an instructor field holding a single
space is empty after trimming, so the claim demands a ValidationError
naming instructor; the code tests Python truthiness with no trimming, so
the submission passes validation and is appended successfully. -/
theorem validation_no_trim_counterexample :
    " ".data.all Char.isWhitespace = true ∧
    (add_course ⟨some "CS101", some "Intro", some " ", some "Fall",
        some "MWF 9am", none, none, none, none⟩ []).1 = .success :=
  ⟨by decide, rfl⟩

/-- C5 amended: validation rejects exactly when some required field is
absent or the empty string (no trimming is applied), the error carries
the complete ordered list of human-readable missing-field names, and a
submission missing only instructor and schedule yields exactly the list
[instructor, schedule] in that order. -/
theorem validation_missing_fields_amended (form : Form) (stored : List Course) :
    (requiredBlank form = true →
      add_course form stored =
        (.validationError
          ((requiredNames.filter (fun p => pyFalsy (p.2 form))).map Prod.fst),
         stored)) ∧
    (requiredBlank form = false →
      ∀ ms, (add_course form stored).1 ≠ .validationError ms) ∧
    (pyFalsy form.code = false → pyFalsy form.name = false →
     pyFalsy form.semester = false → pyFalsy form.instructor = true →
     pyFalsy form.schedule = true →
      add_course form stored =
        (.validationError ["instructor", "schedule"], stored)) := by
  refine ⟨?_, ?_, ?_⟩
  · intro h
    have hm : missing_fields form =
        (requiredNames.filter (fun p => pyFalsy (p.2 form))).map Prod.fst := by
      cases h1 : pyFalsy form.code <;> cases h2 : pyFalsy form.name <;>
        cases h3 : pyFalsy form.instructor <;>
        cases h4 : pyFalsy form.semester <;>
        cases h5 : pyFalsy form.schedule <;>
        simp [missing_fields, requiredNames, h1, h2, h3, h4, h5]
    simp [add_course, h, hm]
  · intro h ms
    simp only [add_course, h, Bool.false_eq_true, if_false]
    split <;> simp
  · intro h1 h2 h4 h3 h5
    have hb : requiredBlank form = true := by simp [requiredBlank, h3]
    have hm : missing_fields form = ["instructor", "schedule"] := by
      simp [missing_fields, h1, h2, h3, h4, h5]
    simp [add_course, hb, hm]

/-- Witness for C5 amended: a submission with code, name and semester
present but instructor and schedule absent is rejected with exactly the
missing-field list [instructor, schedule]. -/
theorem validation_missing_fields_amended_witness :
    add_course ⟨some "CS101", some "Intro", none, some "Fall", none,
        none, none, none, none⟩ [] =
      (.validationError ["instructor", "schedule"], []) :=
  (validation_missing_fields_amended
      ⟨some "CS101", some "Intro", none, some "Fall", none,
       none, none, none, none⟩ []).2.2
    (by decide) (by decide) (by decide) (by decide) (by decide)

/-- Counterexample to C8 as stated: a backing file whose text is the valid
JSON document "hello" parses fine, so load_courses returns the string
without raising, although that value is not an ordered sequence of
Course Records. -/
theorem load_wrong_shape_counterexample :
    load_courses (some (some (.str "hello"))) = .ok (.str "hello") ∧
    decodeCourses (.str "hello") = none :=
  ⟨rfl, rfl⟩

/-- C8 amended: load_courses raises StorageCorruptError exactly when the
backing file exists but is not syntactically valid JSON; any value
json.load produces — whatever its shape — is returned without error. -/
theorem storage_corrupt_iff_invalid_json (fs : FileState) :
    (load_courses fs = .error .corrupt ↔ fs = some none) ∧
    (∀ v, fs = some (some v) → load_courses fs = .ok v) := by
  refine ⟨⟨?_, ?_⟩, ?_⟩
  · intro h
    cases fs with
    | none => exact absurd h (by simp [load_courses])
    | some o =>
      cases o with
      | none => rfl
      | some v => exact absurd h (by simp [load_courses])
  · intro h
    subst h
    rfl
  · intro v h
    subst h
    rfl

/-- Witness for C8 amended: a file that exists but is not valid JSON makes
load_courses fail with the corrupt-storage error. -/
theorem storage_corrupt_iff_invalid_json_witness :
    load_courses (some none) = .error .corrupt :=
  (storage_corrupt_iff_invalid_json (some none)).1.mpr rfl

/-- Helper: the persisted JSON object of any course lists exactly the nine
schema keys, in the order of src/app.py lines 175-185. -/
theorem toJson_keys (c : Course) :
    Json.keys (Course.toJson c) =
      ["code", "name", "instructor", "semester", "schedule", "classroom",
       "prerequisites", "grading", "description"] := rfl

/-- Helper: the classroom key of a persisted course object. -/
theorem toJson_lookup_classroom (c : Course) :
    Json.lookup (Course.toJson c) "classroom" = some (.str c.classroom) := rfl

/-- Helper: the prerequisites key of a persisted course object. -/
theorem toJson_lookup_prerequisites (c : Course) :
    Json.lookup (Course.toJson c) "prerequisites" =
      some (.str c.prerequisites) := rfl

/-- Helper: the grading key of a persisted course object. -/
theorem toJson_lookup_grading (c : Course) :
    Json.lookup (Course.toJson c) "grading" = some (.str c.grading) := rfl

/-- Helper: the description key of a persisted course object. -/
theorem toJson_lookup_description (c : Course) :
    Json.lookup (Course.toJson c) "description" =
      some (.str c.description) := rfl

/-- C9: optional fields absent from the submission default to the empty
string; a successful add appends the built record at the end, the
persisted file holds its JSON object with all nine keys present, and the
empty optional fields are stored as empty strings under their own
keys. -/
theorem optional_defaults_nine_fields (form : Form) (stored : List Course)
    (hc : form.classroom = none) (hp : form.prerequisites = none)
    (hg : form.grading = none) (hd : form.description = none) :
    (formRecord form).classroom = "" ∧
    (formRecord form).prerequisites = "" ∧
    (formRecord form).grading = "" ∧
    (formRecord form).description = "" ∧
    ((add_course form stored).1 = .success →
      (add_course form stored).2 = stored ++ [formRecord form] ∧
      persist (add_course form stored).2 =
        some (some (.arr (stored.map Course.toJson ++
          [Course.toJson (formRecord form)])))) ∧
    Json.keys (Course.toJson (formRecord form)) =
      ["code", "name", "instructor", "semester", "schedule", "classroom",
       "prerequisites", "grading", "description"] ∧
    Json.lookup (Course.toJson (formRecord form)) "classroom"
      = some (.str "") ∧
    Json.lookup (Course.toJson (formRecord form)) "prerequisites"
      = some (.str "") ∧
    Json.lookup (Course.toJson (formRecord form)) "grading"
      = some (.str "") ∧
    Json.lookup (Course.toJson (formRecord form)) "description"
      = some (.str "") := by
  have hstate : (add_course form stored).1 = .success →
      (add_course form stored).2 = stored ++ [formRecord form] := by
    intro h
    cases h1 : requiredBlank form with
    | true => simp [add_course, h1] at h
    | false =>
      cases h2 : stored.any
          (fun course => pyLower course.code ==
            pyLower (form.code.getD "")) with
      | true => simp [add_course, h1, h2] at h
      | false => simp [add_course, h1, h2, save_courses]
  refine ⟨by simp [formRecord, hc], by simp [formRecord, hp],
    by simp [formRecord, hg], by simp [formRecord, hd], ?_, toJson_keys _,
    ?_, ?_, ?_, ?_⟩
  · intro h
    refine ⟨hstate h, ?_⟩
    rw [hstate h]
    simp [persist]
  · rw [toJson_lookup_classroom]
    simp [formRecord, hc]
  · rw [toJson_lookup_prerequisites]
    simp [formRecord, hp]
  · rw [toJson_lookup_grading]
    simp [formRecord, hg]
  · rw [toJson_lookup_description]
    simp [formRecord, hd]

/-- Witness for C9: a submission with the optional fields absent yields a
persisted object whose classroom key holds the empty string. -/
theorem optional_defaults_nine_fields_witness :
    Json.lookup (Course.toJson (formRecord
        ⟨some "CS101", some "Intro", some "Dr. A", some "Fall",
         some "MWF 9am", none, none, none, none⟩)) "classroom"
      = some (.str "") :=
  (optional_defaults_nine_fields
      ⟨some "CS101", some "Intro", some "Dr. A", some "Fall",
       some "MWF 9am", none, none, none, none⟩ []
      rfl rfl rfl rfl).2.2.2.2.2.2.1

end CourseCatalog
